import Mathlib

/-!
Shallow embedding of `imessage-extractor.py` (iMessageExtractor), covering the
text-recovery engine (`extract_message_text`), the placeholder classifier and
timestamp handling in `get_messages_for_contact`, `convert_apple_timestamp`,
and the file effects of `export_to_csv`.

Python values that flow through these functions are either `None`, a `str`,
a `bytes` object, or an `int`; the embedding represents each field with the
`Option` of a dedicated type and models Python truthiness explicitly.
-/

namespace IMsg

/-- A value held in a candidate text field: Python `str` or `bytes`
(`bytes` as the list of byte values). -/
inductive Value where
  | str : String → Value
  | bytes : List Nat → Value
deriving DecidableEq

/-- ASCII whitespace stripped by Python `str.strip()` (the Unicode cases do
not occur in the fields this program reads). -/
def pyIsSpace (c : Char) : Bool :=
  c = ' ' || c = '\t' || c = '\n' || c = '\r' || c = '\x0b' || c = '\x0c'

/-- Python `s.strip()`: drop leading and trailing whitespace. -/
def pyStrip (s : String) : String :=
  String.mk (((s.data.dropWhile pyIsSpace).reverse.dropWhile pyIsSpace).reverse)

/-- UTF-8 bytes of an ASCII string (for ASCII, code points and bytes agree). -/
def strBytes (s : String) : List Nat :=
  s.data.map Char.toNat

/-- A message row as `dict(message_row)` presents it to `extract_message_text`
and to the placeholder/timestamp code in `get_messages_for_contact`.
`body` is absent from the SQL projection, hence `row.get('body')` is `None`
there, but the function itself accepts any dict. -/
structure MessageRow where
  text : Option Value
  body : Option Value
  attributedBody : Option Value
  payload_data : Option Value
  date : Option Int
  cache_has_attachments : Option Int
  balloon_bundle_id : Option String
  associated_message_type : Option Int

/-- `candidate[i] in range 0x20..0x7E`: printable ASCII byte. -/
def isPrintableByte (b : Nat) : Bool :=
  0x20 ≤ b && b ≤ 0x7E

/-- The scanning loop of `extract_message_text`, fuel-indexed so it reduces in
the kernel: skip non-printable bytes, collect each maximal run of printable
bytes, in order of occurrence. Every step consumes at least one byte, so fuel
equal to the blob length never runs out. -/
def printableRunsFuel : Nat → List Nat → List (List Nat)
  | 0, _ => []
  | _, [] => []
  | fuel + 1, b :: bs =>
    if isPrintableByte b then
      (b :: bs.takeWhile isPrintableByte) ::
        printableRunsFuel fuel (bs.dropWhile isPrintableByte)
    else
      printableRunsFuel fuel bs

/-- All maximal runs of printable bytes of a blob, in order. -/
def printableRuns (l : List Nat) : List (List Nat) :=
  printableRunsFuel l.length l

/-- `candidate[start:i].decode('utf-8', errors='ignore')` applied to a run of
printable ASCII bytes: every such byte is its own code point and none is
dropped. -/
def decodeRun (run : List Nat) : String :=
  String.mk (run.map Char.ofNat)

/-- Python `t.startswith(p)` (kernel-computable form of `String.startsWith`). -/
def strStartsWith (t p : String) : Bool :=
  p.data.isPrefixOf t.data

/-- The filter on a decoded run: `len(text) > 20 and not text.startswith('NS')
and not text.startswith('__kIM')`. -/
def keepText (t : String) : Bool :=
  20 < t.length && !(strStartsWith t "NS") && !(strStartsWith t "__kIM")

/-- All decoded printable runs of a blob, in order. -/
def runStrings (b : List Nat) : List String :=
  (printableRuns b).map decodeRun

/-- `text_parts`: the decoded runs surviving the filter, in order. -/
def meaningfulParts (b : List Nat) : List String :=
  (runStrings b).filter keepText

/-- One comparison step of Python `max(..., key=len)`: the running maximum is
replaced only when the new element is strictly longer, so ties keep the
earlier element. -/
def pickLonger (acc s : String) : String :=
  if acc.length < s.length then s else acc

/-- `max(text_parts, key=len)` on a (possibly empty) list: Python `max`
returns the first element attaining the maximal key. -/
def pyMaxByLen : List String → Option String
  | [] => none
  | x :: xs => some (xs.foldl pickLonger x)

/-- Python `needle in haystack` on `bytes`: `needle` occurs as a contiguous
subsequence. -/
def containsSeq (needle : List Nat) : List Nat → Bool
  | [] => needle.isEmpty
  | b :: bs => needle.isPrefixOf (b :: bs) || containsSeq needle bs

/-- `b'NSAttributedString' in candidate or b'NSMutableAttributedString' in
candidate`. -/
def hasMarker (b : List Nat) : Bool :=
  containsSeq (strBytes "NSAttributedString") b ||
    containsSeq (strBytes "NSMutableAttributedString") b

/-- A UTF-8 continuation byte `0b10xxxxxx`. -/
def isCont (b : Nat) : Bool :=
  0x80 ≤ b && b ≤ 0xBF

/-- Validating UTF-8 decoder, the semantics of Python `bytes.decode('utf-8')`:
rejects stray continuation bytes, truncated sequences, overlong encodings,
surrogates and code points above `0x10FFFF`; `none` models the
`UnicodeDecodeError` path. Fuel-indexed so it reduces in the kernel; every
step consumes at least one byte, so fuel equal to the length never runs
out. -/
def utf8DecodeFuel : Nat → List Nat → Option (List Char)
  | _, [] => some []
  | 0, _ :: _ => none
  | fuel + 1, b :: rest =>
    if b < 0x80 then
      (utf8DecodeFuel fuel rest).map (fun cs => Char.ofNat b :: cs)
    else if b < 0xC2 then
      none
    else if b < 0xE0 then
      match rest with
      | [] => none
      | c1 :: rest2 =>
        if isCont c1 then
          (utf8DecodeFuel fuel rest2).map
            (fun cs => Char.ofNat ((b - 0xC0) * 0x40 + (c1 - 0x80)) :: cs)
        else none
    else if b < 0xF0 then
      match rest with
      | c1 :: c2 :: rest3 =>
        if isCont c1 && isCont c2 then
          let cp := (b - 0xE0) * 0x1000 + (c1 - 0x80) * 0x40 + (c2 - 0x80)
          if cp < 0x800 || (0xD800 ≤ cp && cp ≤ 0xDFFF) then none
          else (utf8DecodeFuel fuel rest3).map (fun cs => Char.ofNat cp :: cs)
        else none
      | _ => none
    else if b < 0xF5 then
      match rest with
      | c1 :: c2 :: c3 :: rest4 =>
        if isCont c1 && isCont c2 && isCont c3 then
          let cp := (b - 0xF0) * 0x40000 + (c1 - 0x80) * 0x1000 +
            (c2 - 0x80) * 0x40 + (c3 - 0x80)
          if cp < 0x10000 || 0x10FFFF < cp then none
          else (utf8DecodeFuel fuel rest4).map (fun cs => Char.ofNat cp :: cs)
        else none
      | _ => none
    else none

/-- `candidate.decode('utf-8')`. -/
def utf8Decode (b : List Nat) : Option String :=
  (utf8DecodeFuel b.length b).map String.mk

/-- The guard `if candidate and str(candidate).strip():`.
For a `str`, truthiness plus non-blank after stripping; for `bytes`,
`str(candidate)` is the repr `b'...'`, which is never whitespace-only, so the
guard reduces to the truthiness of the bytes object (non-emptiness). -/
def pyGuard : Value → Bool
  | .str s => s ≠ "" && pyStrip s ≠ ""
  | .bytes b => !b.isEmpty

/-- One iteration of the candidate loop in `extract_message_text`: `some t`
models `return t`, `none` models falling through to the next candidate
(including the `except ...: continue` path on a decode error and the
marker-scan path when no part survives the filter). -/
def tryCandidate : Option Value → Option String
  | none => none
  | some v =>
    if pyGuard v then
      match v with
      | .bytes b =>
        if hasMarker b then pyMaxByLen (meaningfulParts b)
        else utf8Decode b
      | .str s => some (pyStrip s)
    else none

/-- `extract_message_text`: try `text`, `body`, `attributedBody`,
`payload_data` in order; return the first candidate that yields text,
else `None`. -/
def extract_message_text (r : MessageRow) : Option String :=
  match tryCandidate r.text with
  | some t => some t
  | none =>
    match tryCandidate r.body with
    | some t => some t
    | none =>
      match tryCandidate r.attributedBody with
      | some t => some t
      | none => tryCandidate r.payload_data

/-- Python truthiness of an optional string field (`None` and `''` falsy). -/
def pyTruthyOptStr : Option String → Bool
  | none => false
  | some s => s ≠ ""

/-- Python truthiness of an optional integer field (`None` and `0` falsy). -/
def pyTruthyOptInt : Option Int → Bool
  | none => false
  | some n => n ≠ 0

/-- The `display_text` assignment in `get_messages_for_contact`: the extracted
text when truthy, else the placeholder chain
`[Attachment]` / `[App Message: <bundle-id>]` / `[Reaction/Effect]` /
`[No text content]`, each guard a Python truthiness test. -/
def display_text (r : MessageRow) : String :=
  let extracted := extract_message_text r
  if pyTruthyOptStr extracted then extracted.getD ""
  else if pyTruthyOptInt r.cache_has_attachments then "[Attachment]"
  else if pyTruthyOptStr r.balloon_bundle_id then
    "[App Message: " ++ r.balloon_bundle_id.getD "" ++ "]"
  else if pyTruthyOptInt r.associated_message_type then "[Reaction/Effect]"
  else "[No text content]"

/-- Unix seconds of 2001-01-01T00:00:00: `datetime(2001, 1, 1).timestamp()`.
The code builds the epoch as a naive local datetime and later renders with
`datetime.fromtimestamp` in the same local zone, so the local offset cancels
in the rendered string; the model works in UTC, where this constant is the
value of that expression. Exact rational arithmetic stands in for Python float
division (whose error is far below a second for any realistic timestamp). -/
def appleEpochUnix : ℚ := 978307200

/-- `convert_apple_timestamp`: `None` maps to `None`, otherwise
`apple_epoch.timestamp() + apple_timestamp / 1_000_000_000`. The `except`
branch (unreachable for any value representable here) also returns `None`. -/
def convert_apple_timestamp : Option Int → Option ℚ
  | none => none
  | some ns => some (appleEpochUnix + (ns : ℚ) / 1000000000)

/-- Civil date from days since 1970-01-01 (proleptic Gregorian), the calendar
arithmetic behind `datetime.fromtimestamp`; era-based closed form. -/
def civilFromDays (z : Int) : Int × Int × Int :=
  let z2 : Int := z + 719468
  let era : Int := z2 / 146097
  let doe : Int := z2 - era * 146097
  let yoe : Int := (doe - doe / 1460 + doe / 36524 - doe / 146096) / 365
  let doy : Int := doe - (365 * yoe + yoe / 4 - yoe / 100)
  let mp : Int := (5 * doy + 2) / 153
  let d : Int := doy - (153 * mp + 2) / 5 + 1
  let m : Int := if mp < 10 then mp + 3 else mp - 9
  (yoe + era * 400 + (if m ≤ 2 then 1 else 0), m, d)

/-- Two-digit zero padding, as in `strftime` numeric fields. -/
def pad2 (n : Int) : String :=
  if n < 10 then "0" ++ toString n else toString n

/-- Render whole Unix seconds as `strftime('%Y-%m-%d %H:%M:%S')` does for the
corresponding `datetime` (model in UTC; see `appleEpochUnix`). -/
def formatUnixSec (t : Int) : String :=
  let days := t / 86400
  let sod := t % 86400
  let ymd := civilFromDays days
  toString ymd.1 ++ "-" ++ pad2 ymd.2.1 ++ "-" ++ pad2 ymd.2.2 ++ " " ++
    pad2 (sod / 3600) ++ ":" ++ pad2 (sod % 3600 / 60) ++ ":" ++ pad2 (sod % 60)

/-- Render a rational timestamp: `datetime.fromtimestamp(ts).strftime(...)`
truncates to whole seconds for the values this program produces. -/
def formatUnixTs (ts : ℚ) : String :=
  formatUnixSec ts.floor

/-- The `readable_date` assignment in `get_messages_for_contact`: the raw
`date` is tested for truthiness before conversion, then the converted float is
itself tested for truthiness before rendering. -/
def readable_date (r : MessageRow) : String :=
  match r.date with
  | none => "Unknown"
  | some d =>
    if d ≠ 0 then
      match convert_apple_timestamp (some d) with
      | some ts => if ts ≠ 0 then formatUnixTs ts else "Unknown"
      | none => "Unknown"
    else "Unknown"

/-- A processed message as `export_to_csv` consumes it: the dict produced by
`get_messages_for_contact` restricted to the keys the CSV writer reads. -/
structure ProcessedMsg where
  readable : String
  sender : String
  display : String
  service : Option String
  cache_has_attachments : Option Int
  balloon_bundle_id : Option String

/-- `csv` QUOTE_MINIMAL: a field is quoted iff it contains the delimiter, the
quote character, or a line break. -/
def csvNeedsQuote (s : String) : Bool :=
  s.data.contains ',' || s.data.contains '\x22' || s.data.contains '\n' ||
    s.data.contains '\r'

/-- Double every quote character (the quoting escape of the `csv` module). -/
def csvEscape (s : String) : String :=
  String.mk (s.data.foldr
    (fun c acc => if c = '\x22' then c :: c :: acc else c :: acc) [])

/-- Serialize one CSV field (doubling embedded quotes when quoting). -/
def csvField (s : String) : String :=
  if csvNeedsQuote s then "\x22" ++ csvEscape s ++ "\x22" else s

/-- The row dict written per message: `service or 'Unknown'`,
`'Yes' if cache_has_attachments else 'No'`, `balloon_bundle_id or 'Text'`. -/
def csvRow (m : ProcessedMsg) : String :=
  String.intercalate "," [csvField m.readable, csvField m.sender,
    csvField m.display,
    csvField (match m.service with
      | some s => if s ≠ "" then s else "Unknown"
      | none => "Unknown"),
    (if pyTruthyOptInt m.cache_has_attachments then "Yes" else "No"),
    csvField (match m.balloon_bundle_id with
      | some s => if s ≠ "" then s else "Text"
      | none => "Text")]

/-- The header row written by `writer.writeheader()`. -/
def csvHeader : String :=
  "date,sender,message,service,has_attachments,message_type"

/-- File effects of `export_to_csv`. `failAt = some k` injects an I/O error
raised while writing row `k` (0-based); the `with` block closes the file, the
`except` handler prints the error and returns `None` — it performs no cleanup,
so the already-written header and first `k` rows remain on disk. The first
component is `true` iff the export completed (a filepath was returned); the
second is the final content of the output file as a list of lines, `none` if
the file was never created. -/
def export_to_csv (msgs : List ProcessedMsg) (failAt : Option Nat) :
    Bool × Option (List String) :=
  match failAt with
  | none => (true, some (csvHeader :: msgs.map csvRow))
  | some k =>
    if k < msgs.length then (false, some (csvHeader :: (msgs.take k).map csvRow))
    else (true, some (csvHeader :: msgs.map csvRow))

/-! ## Concrete fixtures -/

/-- A row with every field null. -/
def emptyRow : MessageRow :=
  ⟨none, none, none, none, none, none, none, none⟩

/-- A rich-text blob: marker, a 15-character run and a 35-character run,
separated by non-printable bytes. -/
def c1blob : List Nat :=
  strBytes "NSAttributedString" ++ [1] ++ strBytes "short run 15 ch" ++ [1] ++
    strBytes "this is the real message, 35 chars!"

/-- A marker-bearing blob that is also clean printable ASCII. -/
def c3blob : List Nat := strBytes "NSAttributedString hi"

/-- A blob whose only printable run is the marker token itself. -/
def c8blob : List Nat := [0x04] ++ strBytes "NSAttributedString" ++ [0x00]

/-- A processed message for the export model. -/
def c7msgA : ProcessedMsg :=
  ⟨"2024-01-01 00:00:00", "Me", "hello there", some "iMessage", some 0, none⟩

/-- A second processed message for the export model. -/
def c7msgB : ProcessedMsg :=
  ⟨"2024-01-01 00:00:01", "+15551234567", "reply, with comma", some "iMessage",
    some 0, none⟩

/-! ## Helper lemmas -/

/-- The fold behind `max(..., key=len)` either returns the initial accumulator
(with nothing in the list beating it) or an element of the list that is
strictly longer than the accumulator and everything before it, and at least as
long as everything after it — i.e. the first element of maximal length. -/
theorem foldl_pickLonger_spec (xs : List String) (acc : String) :
    (xs.foldl pickLonger acc = acc ∧ ∀ x ∈ xs, x.length ≤ acc.length) ∨
    (∃ pre post, xs = pre ++ xs.foldl pickLonger acc :: post ∧
      acc.length < (xs.foldl pickLonger acc).length ∧
      (∀ x ∈ pre, x.length < (xs.foldl pickLonger acc).length) ∧
      (∀ x ∈ post, x.length ≤ (xs.foldl pickLonger acc).length)) := by
  induction xs generalizing acc with
  | nil => exact Or.inl ⟨rfl, by simp⟩
  | cons x xs ih =>
    have hfold : (x :: xs).foldl pickLonger acc = xs.foldl pickLonger (pickLonger acc x) :=
      rfl
    by_cases hlt : acc.length < x.length
    · have hax : pickLonger acc x = x := by simp [pickLonger, hlt]
      have hfold2 : (x :: xs).foldl pickLonger acc = xs.foldl pickLonger x := by
        rw [hfold, hax]
      rcases ih x with ⟨h1, h2⟩ | ⟨pre, post, heq, hgt, hpre, hpost⟩
      · refine Or.inr ⟨[], xs, ?_, ?_, by simp, ?_⟩
        · rw [hfold2, h1]; simp
        · rw [hfold2, h1]; exact hlt
        · intro y hy
          rw [hfold2, h1]
          exact h2 y hy
      · refine Or.inr ⟨x :: pre, post, ?_, ?_, ?_, ?_⟩
        · rw [hfold2, List.cons_append]
          exact congrArg (x :: ·) heq
        · rw [hfold2]
          exact Nat.lt_trans hlt hgt
        · intro y hy
          rw [hfold2]
          rcases List.mem_cons.mp hy with hy | hy
          · subst hy; exact hgt
          · exact hpre y hy
        · intro y hy
          rw [hfold2]
          exact hpost y hy
    · have hax : pickLonger acc x = acc := by simp [pickLonger, hlt]
      have hfold2 : (x :: xs).foldl pickLonger acc = xs.foldl pickLonger acc := by
        rw [hfold, hax]
      rcases ih acc with ⟨h1, h2⟩ | ⟨pre, post, heq, hgt, hpre, hpost⟩
      · refine Or.inl ⟨by rw [hfold2, h1], ?_⟩
        intro y hy
        rcases List.mem_cons.mp hy with hy | hy
        · subst hy
          exact Nat.le_of_not_lt hlt
        · exact h2 y hy
      · refine Or.inr ⟨x :: pre, post, ?_, ?_, ?_, ?_⟩
        · rw [hfold2, List.cons_append]
          exact congrArg (x :: ·) heq
        · rw [hfold2]; exact hgt
        · intro y hy
          rw [hfold2]
          rcases List.mem_cons.mp hy with hy | hy
          · subst hy
            exact Nat.lt_of_le_of_lt (Nat.le_of_not_lt hlt) hgt
          · exact hpre y hy
        · intro y hy
          rw [hfold2]
          exact hpost y hy

/-- `max(l, key=len)` on a non-empty list returns an element splitting the
list so that everything before it is strictly shorter and everything after it
is no longer: the longest element, ties broken by first occurrence. -/
theorem pyMaxByLen_spec (l : List String) (m : String) (h : pyMaxByLen l = some m) :
    ∃ pre post, l = pre ++ m :: post ∧
      (∀ x ∈ pre, x.length < m.length) ∧ (∀ x ∈ post, x.length ≤ m.length) := by
  cases l with
  | nil => simp [pyMaxByLen] at h
  | cons x xs =>
    have hm : xs.foldl pickLonger x = m := by
      simpa [pyMaxByLen] using h
    rcases foldl_pickLonger_spec xs x with ⟨h1, h2⟩ | ⟨pre, post, heq, hgt, hpre, hpost⟩
    · have hxm : x = m := by rw [← hm, h1]
      refine ⟨[], xs, by simp [hxm], by simp, ?_⟩
      intro y hy
      rw [← hxm]
      exact h2 y hy
    · rw [hm] at heq hgt hpre hpost
      refine ⟨x :: pre, post, ?_, ?_, hpost⟩
      · rw [List.cons_append]
        exact congrArg (x :: ·) heq
      · intro y hy
        rcases List.mem_cons.mp hy with hy | hy
        · subst hy; exact hgt
        · exact hpre y hy

/-- `max` over a non-empty list returns something. -/
theorem pyMaxByLen_isSome (l : List String) (h : l ≠ []) :
    ∃ m, pyMaxByLen l = some m := by
  cases l with
  | nil => exact absurd rfl h
  | cons x xs => exact ⟨xs.foldl pickLonger x, rfl⟩

/-- Every surviving part passes the filter: longer than 20 characters and not
`NS`- or `__kIM`-prefixed. -/
theorem meaningfulParts_sound (b : List Nat) (t : String) (h : t ∈ meaningfulParts b) :
    20 < t.length ∧ strStartsWith t "NS" = false ∧ strStartsWith t "__kIM" = false := by
  have := List.of_mem_filter h
  simpa [keepText, and_assoc] using this

/-- Stripping the empty string yields the empty string. -/
theorem pyStrip_empty : pyStrip "" = "" := rfl

/-- A string candidate that is non-blank after stripping is returned
stripped. -/
theorem tryCandidate_str (s : String) (h : pyStrip s ≠ "") :
    tryCandidate (some (.str s)) = some (pyStrip s) := by
  have hs : s ≠ "" := by
    intro he
    subst he
    exact h pyStrip_empty
  simp [tryCandidate, pyGuard, hs, h]

/-- A non-empty bytes candidate containing a marker goes through the
printable-run scan. -/
theorem tryCandidate_bytes_marker (b : List Nat) (hb : b ≠ []) (hm : hasMarker b = true) :
    tryCandidate (some (.bytes b)) = pyMaxByLen (meaningfulParts b) := by
  simp [tryCandidate, pyGuard, hb, hm]

/-- A non-empty bytes candidate without a marker is decoded as UTF-8. -/
theorem tryCandidate_bytes_noMarker (b : List Nat) (hb : b ≠ []) (hm : hasMarker b = false) :
    tryCandidate (some (.bytes b)) = utf8Decode b := by
  simp [tryCandidate, pyGuard, hb, hm]

/-- A bytes candidate without a marker whose decode raises yields nothing. -/
theorem tryCandidate_decode_fail (b : List Nat) (hm : hasMarker b = false)
    (hd : utf8Decode b = none) : tryCandidate (some (.bytes b)) = none := by
  have hb : b ≠ [] := by
    intro he
    subst he
    exact absurd hd (by decide)
  rw [tryCandidate_bytes_noMarker b hb hm, hd]

/-! ## Claim theorems -/

/-- C1: for every blob candidate containing the `NSAttributedString` or
`NSMutableAttributedString` byte sequence, recovery scans the blob's maximal
printable-ASCII runs, keeps only decoded runs longer than 20 characters that
are not `NS`- or `__kIM`-prefixed, and returns the longest surviving run with
ties broken by first occurrence: the result splits the survivor list so that
every earlier survivor is strictly shorter and every later one no longer. -/
theorem claim_C1_marker_scan_returns_longest_run (b : List Nat) (r : MessageRow)
    (htext : r.text = none) (hbody : r.body = none)
    (hab : r.attributedBody = some (.bytes b))
    (hb : b ≠ []) (hm : hasMarker b = true) (hne : meaningfulParts b ≠ []) :
    ∃ m pre post,
      extract_message_text r = some m ∧
      meaningfulParts b = pre ++ m :: post ∧
      (∀ x ∈ pre, x.length < m.length) ∧
      (∀ x ∈ post, x.length ≤ m.length) ∧
      20 < m.length ∧ strStartsWith m "NS" = false ∧
      strStartsWith m "__kIM" = false := by
  obtain ⟨m, hmax⟩ := pyMaxByLen_isSome _ hne
  obtain ⟨pre, post, hsplit, hpre, hpost⟩ := pyMaxByLen_spec _ m hmax
  have hmem : m ∈ meaningfulParts b := by
    rw [hsplit]
    exact List.mem_append_right _ (List.mem_cons_self _ _)
  obtain ⟨hlen, hns, hkim⟩ := meaningfulParts_sound b m hmem
  refine ⟨m, pre, post, ?_, hsplit, hpre, hpost, hlen, hns, hkim⟩
  have htc : tryCandidate r.attributedBody = some m := by
    rw [hab, tryCandidate_bytes_marker b hb hm, hmax]
  unfold extract_message_text
  rw [htext, hbody, htc]
  rfl

/-- C1 witness: the blob with marker plus printable runs of lengths 15 and 35
yields the 35-character run. -/
theorem claim_C1_witness :
    extract_message_text { emptyRow with attributedBody := some (.bytes c1blob) } =
      some "this is the real message, 35 chars!" := by
  obtain ⟨m, pre, post, h1, h2, -, -, -, -, -⟩ :=
    claim_C1_marker_scan_returns_longest_run c1blob
      { emptyRow with attributedBody := some (.bytes c1blob) }
      rfl rfl rfl (by decide) (by decide) (by decide)
  have hparts : meaningfulParts c1blob = ["this is the real message, 35 chars!"] := by
    decide
  rw [hparts] at h2
  have hmem : m ∈ (["this is the real message, 35 chars!"] : List String) := by
    rw [h2]
    exact List.mem_append_right _ (List.mem_cons_self _ _)
  rw [h1, List.mem_singleton.mp hmem]

/-- C2: recovery tries `text`, `body`, `attributedBody`, `payload_data` in
that fixed order and returns the output of the first candidate that yields
text, all earlier candidates yielding nothing (so fields are never merged);
in particular a record whose plain-text field is non-blank returns exactly
that field stripped, whatever the other fields hold. -/
theorem claim_C2_priority_order :
    (∀ (r : MessageRow) (t : String), extract_message_text r = some t →
      tryCandidate r.text = some t ∨
      (tryCandidate r.text = none ∧ tryCandidate r.body = some t) ∨
      (tryCandidate r.text = none ∧ tryCandidate r.body = none ∧
        tryCandidate r.attributedBody = some t) ∨
      (tryCandidate r.text = none ∧ tryCandidate r.body = none ∧
        tryCandidate r.attributedBody = none ∧
        tryCandidate r.payload_data = some t)) ∧
    (∀ (r : MessageRow) (s : String), r.text = some (.str s) → pyStrip s ≠ "" →
      extract_message_text r = some (pyStrip s)) := by
  constructor
  · intro r t h
    unfold extract_message_text at h
    cases h1 : tryCandidate r.text with
    | some u =>
      rw [h1] at h
      exact Or.inl h
    | none =>
      rw [h1] at h
      cases h2 : tryCandidate r.body with
      | some u =>
        rw [h2] at h
        exact Or.inr (Or.inl ⟨rfl, h⟩)
      | none =>
        rw [h2] at h
        cases h3 : tryCandidate r.attributedBody with
        | some u =>
          rw [h3] at h
          exact Or.inr (Or.inr (Or.inl ⟨rfl, rfl, h⟩))
        | none =>
          rw [h3] at h
          exact Or.inr (Or.inr (Or.inr ⟨rfl, rfl, rfl, h⟩))
  · intro r s hs hne
    have htc : tryCandidate r.text = some (pyStrip s) := by
      rw [hs]
      exact tryCandidate_str s hne
    unfold extract_message_text
    rw [htc]

/-- C2 witness: a record with non-blank plain text and a rich-text blob
returns the stripped plain text. -/
theorem claim_C2_witness :
    extract_message_text
      { emptyRow with
          text := some (.str "  hi there "),
          attributedBody := some (.bytes c1blob) } = some "hi there" := by
  have h := claim_C2_priority_order.2
    { emptyRow with
        text := some (.str "  hi there "),
        attributedBody := some (.bytes c1blob) }
    "  hi there " rfl (by decide)
  rwa [show pyStrip "  hi there " = "hi there" from by decide] at h

/-- C3 counterexample: the claim fails twice on the code. A blob containing
the marker whose bytes are clean printable ASCII is *not* returned as its
decoded string — the marker check precedes the clean-decode attempt and the
scan then filters everything out, so the candidate yields nothing. And a
markerless blob decoding to a blank string *is* returned directly — the next
candidate is not tried. -/
theorem claim_C3_counterexample :
    (utf8Decode c3blob = some "NSAttributedString hi" ∧
      extract_message_text
        { emptyRow with attributedBody := some (.bytes c3blob) } = none) ∧
    (utf8Decode [0x20, 0x20] = some "  " ∧ pyStrip "  " = "" ∧
      extract_message_text
        { emptyRow with
            attributedBody := some (.bytes [0x20, 0x20]),
            payload_data := some (.str "fallback") } = some "  ") := by
  decide

/-- C3 (amended): for every non-empty *markerless* binary blob candidate
whose bytes decode cleanly as UTF-8, recovery returns the decoded string
directly, even when it is blank; a blob containing a marker is scanned
instead of being returned as its decoded text. -/
theorem claim_C3_amended_clean_decode (b : List Nat) (s : String) (r : MessageRow)
    (htext : r.text = none) (hbody : r.body = none)
    (hab : r.attributedBody = some (.bytes b)) (hb : b ≠ [])
    (hm : hasMarker b = false) (hd : utf8Decode b = some s) :
    extract_message_text r = some s := by
  have htc : tryCandidate r.attributedBody = some s := by
    rw [hab, tryCandidate_bytes_noMarker b hb hm, hd]
  unfold extract_message_text
  rw [htext, hbody, htc]
  rfl

/-- C3 witness: a record whose only content is a markerless ASCII blob
returns the decoded text. -/
theorem claim_C3_witness :
    extract_message_text
      { emptyRow with attributedBody := some (.bytes (strBytes "just plain text")) } =
      some "just plain text" :=
  claim_C3_amended_clean_decode (strBytes "just plain text") "just plain text"
    { emptyRow with attributedBody := some (.bytes (strBytes "just plain text")) }
    rfl rfl rfl (by decide) (by decide) (by decide)

/-- C4 counterexample: the pipeline reports a record with timestamp `0` as
`"Unknown"`, not as the rendered reference epoch, and a null timestamp as
`"Unknown"` (capital U), not `"unknown"`. -/
theorem claim_C4_counterexample :
    readable_date { emptyRow with date := some 0 } = "Unknown" ∧
    "Unknown" ≠ "2001-01-01 00:00:00" ∧
    readable_date emptyRow = "Unknown" ∧
    "Unknown" ≠ "unknown" := by
  decide

/-- C4 (amended): conversion maps a nanosecond count via
`unix_seconds = reference_epoch_unix_seconds + timestamp_ns / 1_000_000_000`
and is total (never raises; `None` in maps to `None` out); converting 0
nanoseconds yields the reference epoch, which renders as
`2001-01-01 00:00:00` — but the record pipeline reports both a null and a `0`
timestamp as `"Unknown"` (capital U), because the caller tests the raw value
for truthiness before converting. -/
theorem claim_C4_amended_timestamp_conversion :
    (∀ d : Int, convert_apple_timestamp (some d) =
      some (appleEpochUnix + (d : ℚ) / 1000000000)) ∧
    convert_apple_timestamp none = none ∧
    formatUnixTs (appleEpochUnix + (0 : ℚ) / 1000000000) = "2001-01-01 00:00:00" ∧
    (∀ r : MessageRow, r.date = none → readable_date r = "Unknown") ∧
    (∀ r : MessageRow, r.date = some 0 → readable_date r = "Unknown") := by
  refine ⟨fun d => rfl, rfl, ?_, ?_, ?_⟩
  · have h0 : appleEpochUnix + (0 : ℚ) / 1000000000 = appleEpochUnix := by norm_num
    rw [h0]
    decide
  · intro r h
    unfold readable_date
    rw [h]
  · intro r h
    unfold readable_date
    rw [h]
    decide

/-- C4 witness: the conversion formula at a concrete offset, and the pipeline
at a concrete zero-timestamp record. -/
theorem claim_C4_witness :
    convert_apple_timestamp (some 5000000000) =
      some (appleEpochUnix + (5000000000 : ℚ) / 1000000000) ∧
    readable_date { emptyRow with date := some 0 } = "Unknown" :=
  ⟨claim_C4_amended_timestamp_conversion.1 5000000000,
    claim_C4_amended_timestamp_conversion.2.2.2.2
      { emptyRow with date := some 0 } rfl⟩

/-- C5: when recovery fails on all candidate fields, the placeholder is chosen
in priority order: `[Attachment]` on a truthy attachment flag; else
`[App Message: <bundle-id>]` on a truthy bundle id; else `[Reaction/Effect]`
on a truthy reaction marker; else `[No text content]`. -/
theorem claim_C5_placeholder_priority (r : MessageRow)
    (hx : extract_message_text r = none) :
    (pyTruthyOptInt r.cache_has_attachments = true →
      display_text r = "[Attachment]") ∧
    (pyTruthyOptInt r.cache_has_attachments = false →
      pyTruthyOptStr r.balloon_bundle_id = true →
      display_text r = "[App Message: " ++ r.balloon_bundle_id.getD "" ++ "]") ∧
    (pyTruthyOptInt r.cache_has_attachments = false →
      pyTruthyOptStr r.balloon_bundle_id = false →
      pyTruthyOptInt r.associated_message_type = true →
      display_text r = "[Reaction/Effect]") ∧
    (pyTruthyOptInt r.cache_has_attachments = false →
      pyTruthyOptStr r.balloon_bundle_id = false →
      pyTruthyOptInt r.associated_message_type = false →
      display_text r = "[No text content]") := by
  refine ⟨?_, ?_, ?_, ?_⟩
  · intro h1
    simp [display_text, hx, show pyTruthyOptStr none = false from rfl, h1]
  · intro h1 h2
    simp [display_text, hx, show pyTruthyOptStr none = false from rfl, h1, h2]
  · intro h1 h2 h3
    simp [display_text, hx, show pyTruthyOptStr none = false from rfl, h1, h2, h3]
  · intro h1 h2 h3
    simp [display_text, hx, show pyTruthyOptStr none = false from rfl, h1, h2, h3]

/-- C5 witness: attachment flag and bundle id both set, no recoverable text:
the attachment check wins. -/
theorem claim_C5_witness :
    display_text
      { emptyRow with
          cache_has_attachments := some 1,
          balloon_bundle_id := some "com.apple.messages.url" } = "[Attachment]" :=
  (claim_C5_placeholder_priority
    { emptyRow with
        cache_has_attachments := some 1,
        balloon_bundle_id := some "com.apple.messages.url" }
    (by decide)).1 rfl

/-- C6: the recovery engine is total and swallows decode errors per
candidate: a bytes field without a marker whose UTF-8 decode fails behaves
exactly as if the field were null — the next candidate in order is tried. -/
theorem claim_C6_decode_errors_swallowed (r : MessageRow) (b : List Nat)
    (hm : hasMarker b = false) (hd : utf8Decode b = none) :
    (r.attributedBody = some (.bytes b) →
      extract_message_text r =
        extract_message_text { r with attributedBody := none }) ∧
    (r.payload_data = some (.bytes b) →
      extract_message_text r =
        extract_message_text { r with payload_data := none }) := by
  have htc : tryCandidate (some (.bytes b)) = none := tryCandidate_decode_fail b hm hd
  constructor
  · intro hab
    unfold extract_message_text
    rw [hab, htc]
    rfl
  · intro hpd
    unfold extract_message_text
    rw [hpd, htc]
    rfl

/-- C6 witness: an invalid byte `0xFF` in the rich-text blob is swallowed and
the payload candidate is used instead. -/
theorem claim_C6_witness :
    extract_message_text
      { emptyRow with
          attributedBody := some (.bytes [0xFF]),
          payload_data := some (.str "fallback") } =
      extract_message_text
        { emptyRow with payload_data := some (.str "fallback") } :=
  (claim_C6_decode_errors_swallowed
    { emptyRow with
        attributedBody := some (.bytes [0xFF]),
        payload_data := some (.str "fallback") }
    [0xFF] (by decide) (by decide)).1 rfl

/-- C7 counterexample: an I/O failure while writing the second row is
reported (no filepath returned), yet a partially-written file — the header
plus the first row, not the full export — remains in place. -/
theorem claim_C7_counterexample :
    (export_to_csv [c7msgA, c7msgB] (some 1)).1 = false ∧
    (export_to_csv [c7msgA, c7msgB] (some 1)).2 = some [csvHeader, csvRow c7msgA] ∧
    (export_to_csv [c7msgA, c7msgB] (some 1)).2 ≠ none ∧
    (export_to_csv [c7msgA, c7msgB] (some 1)).2 ≠
      (export_to_csv [c7msgA, c7msgB] none).2 := by
  decide

/-- C7 (amended): when export fails partway, the failure is reported to the
user (error printed, `None` returned instead of a filepath), but a partial
output file is left in place — the header and the rows written before the
failure; no cleanup is performed. -/
theorem claim_C7_amended_partial_file_left (msgs : List ProcessedMsg) (k : Nat)
    (hk : k < msgs.length) :
    export_to_csv msgs (some k) =
      (false, some (csvHeader :: (msgs.take k).map csvRow)) := by
  simp [export_to_csv, hk]

/-- C7 witness: failing on the very first row leaves a file holding just the
header. -/
theorem claim_C7_witness :
    export_to_csv [c7msgA, c7msgB] (some 0) = (false, some [csvHeader]) := by
  have h := claim_C7_amended_partial_file_left [c7msgA, c7msgB] 0 (by decide)
  simpa using h

/-- C8: a record whose only candidate is a marker-bearing blob all of whose
printable runs are `NS`- or `__kIM`-prefixed (the marker token itself
included) recovers nothing from the blob, falls through the remaining
candidates, and displays `[No text content]` when the attachment flag,
bundle id and reaction marker are all absent/falsy. -/
theorem claim_C8_internal_only_blob_no_text (b : List Nat) (r : MessageRow)
    (htext : r.text = none) (hbody : r.body = none)
    (hab : r.attributedBody = some (.bytes b)) (hpd : r.payload_data = none)
    (hm : hasMarker b = true)
    (hruns : ∀ t ∈ runStrings b,
      strStartsWith t "NS" = true ∨ strStartsWith t "__kIM" = true)
    (hcache : pyTruthyOptInt r.cache_has_attachments = false)
    (hbundle : pyTruthyOptStr r.balloon_bundle_id = false)
    (hassoc : pyTruthyOptInt r.associated_message_type = false) :
    extract_message_text r = none ∧ display_text r = "[No text content]" := by
  have hparts : meaningfulParts b = [] := by
    unfold meaningfulParts
    rw [List.filter_eq_nil_iff]
    intro t ht
    rcases hruns t ht with h | h <;> simp [keepText, h]
  have hx : extract_message_text r = none := by
    have htc : tryCandidate r.attributedBody = none := by
      by_cases hb : b = []
      · subst hb
        rw [hab]
        rfl
      · rw [hab, tryCandidate_bytes_marker b hb hm, hparts]
        rfl
    unfold extract_message_text
    rw [htext, hbody, htc, hpd]
    rfl
  refine ⟨hx, ?_⟩
  simp [display_text, hx, show pyTruthyOptStr none = false from rfl, hcache,
    hbundle, hassoc]

/-- C8 witness: a blob whose only printable run is the marker token yields
`[No text content]`. -/
theorem claim_C8_witness :
    extract_message_text
      { emptyRow with attributedBody := some (.bytes c8blob) } = none ∧
    display_text
      { emptyRow with attributedBody := some (.bytes c8blob) } =
      "[No text content]" :=
  claim_C8_internal_only_blob_no_text c8blob
    { emptyRow with attributedBody := some (.bytes c8blob) }
    rfl rfl rfl rfl (by decide) (by decide) rfl rfl rfl

/-- C9: a record whose timestamp is exactly 0 gets readable date `"Unknown"`
— the caller tests the raw value for truthiness before converting — even
though converting 0 would succeed and denote the reference epoch, which
renders as `2001-01-01 00:00:00`. -/
theorem claim_C9_zero_timestamp_never_converted :
    (∀ r : MessageRow, r.date = some 0 → readable_date r = "Unknown") ∧
    convert_apple_timestamp (some 0) = some appleEpochUnix ∧
    formatUnixTs appleEpochUnix = "2001-01-01 00:00:00" := by
  refine ⟨?_, ?_, by decide⟩
  · intro r h
    unfold readable_date
    rw [h]
    decide
  · unfold convert_apple_timestamp
    norm_num

/-- C9 witness: the pipeline at a concrete record with timestamp 0. -/
theorem claim_C9_witness :
    readable_date { emptyRow with date := some 0 } = "Unknown" :=
  claim_C9_zero_timestamp_never_converted.1 { emptyRow with date := some 0 } rfl

/-- C10: the placeholder classifier tests marker fields for truthiness, not
presence: with no recoverable text and a falsy attachment flag, a reaction
marker equal to the integer 0, or an app-bundle identifier equal to the
empty string, is treated as absent, yielding `[No text content]`. -/
theorem claim_C10_truthiness_not_presence (r : MessageRow)
    (hx : extract_message_text r = none)
    (hcache : pyTruthyOptInt r.cache_has_attachments = false) :
    (r.associated_message_type = some 0 →
      pyTruthyOptStr r.balloon_bundle_id = false →
      display_text r = "[No text content]") ∧
    (r.balloon_bundle_id = some "" →
      pyTruthyOptInt r.associated_message_type = false →
      display_text r = "[No text content]") := by
  constructor
  · intro h1 h2
    have h3 : pyTruthyOptInt r.associated_message_type = false := by
      rw [h1]
      rfl
    simp [display_text, hx, show pyTruthyOptStr none = false from rfl, hcache,
      h2, h3]
  · intro h1 h2
    have h3 : pyTruthyOptStr r.balloon_bundle_id = false := by
      rw [h1]
      rfl
    simp [display_text, hx, show pyTruthyOptStr none = false from rfl, hcache,
      h3, h2]

/-- C10 witness: a reaction marker of 0 and an empty-string bundle id each
yield `[No text content]`. -/
theorem claim_C10_witness :
    display_text { emptyRow with associated_message_type := some 0 } =
      "[No text content]" ∧
    display_text { emptyRow with balloon_bundle_id := some "" } =
      "[No text content]" :=
  ⟨(claim_C10_truthiness_not_presence
      { emptyRow with associated_message_type := some 0 } (by decide) rfl).1
      rfl rfl,
    (claim_C10_truthiness_not_presence
      { emptyRow with balloon_bundle_id := some "" } (by decide) rfl).2
      rfl rfl⟩

end IMsg
